import Mathlib

/-!
# Verification of the NYC taxi dashboard pipeline

A shallow embedding of the data pipeline of the `A1_dashboard` repository
(`app.py` and `pages/Graphs.py`): dataset fetcher, loader/cleaner, filter
engine and the aggregation/chart builders, together with theorems settling
the specification claims about them.

Conventions of the embedding:
* A dataframe is a `List` of rows; pandas/polars column operations become
  per-row functions mapped over the list, and boolean-mask filtering becomes
  `List.filter`.
* Nullable columns are `Option`-valued.  A pandas comparison whose operand
  is null (`NaN`/`NaT`) evaluates to `False`; a polars comparison whose
  operand is null yields null, which `filter` drops.  Both collapse to the
  same `Option` comparator that returns `false` on `none`.
* Timestamps are integer Unix seconds; monetary amounts and distances are
  exact rationals.  The one place where genuine IEEE-754 special values are
  observable (the `tip_pct` derivation, which can divide by zero) uses an
  explicit float-value domain `FVal` with the exact special-value rules of
  IEEE division; no rounding enters any claim because the decisive cases
  (`x/0`, `0/0`, null operands) are exact.
* pandas sorts (`value_counts`, `sort_values`) are modelled with the stable
  `List.insertionSort`, which fixes a deterministic tie-break.
-/

/-- Float value domain: the IEEE-754 special values that the pipeline can
actually observe, with finite values kept exact as rationals.  In the pandas
variant a null numeric cell is represented by `nan`. -/
inductive FVal where
  | finite (q : ℚ)
  | inf
  | ninf
  | nan
deriving DecidableEq, Repr

namespace FVal

/-- IEEE-754 division on `FVal`.  Finite/finite is exact rational division
when the divisor is nonzero; division by zero produces `inf`/`ninf`/`nan`
according to the sign of the dividend; `nan` is absorbing. -/
def fdiv : FVal → FVal → FVal
  | nan, _ => nan
  | _, nan => nan
  | finite a, finite b =>
      if b ≠ 0 then finite (a / b)
      else if 0 < a then inf
      else if a < 0 then ninf
      else nan
  | finite _, inf => finite 0
  | finite _, ninf => finite 0
  | inf, finite b => if 0 ≤ b then inf else ninf
  | ninf, finite b => if 0 ≤ b then ninf else inf
  | inf, inf => nan
  | inf, ninf => nan
  | ninf, inf => nan
  | ninf, ninf => nan

/-- IEEE-754 multiplication on `FVal`, used for the `* 100` step. -/
def fmul : FVal → FVal → FVal
  | nan, _ => nan
  | _, nan => nan
  | finite a, finite b => finite (a * b)
  | finite a, inf => if 0 < a then inf else if a < 0 then ninf else nan
  | finite a, ninf => if 0 < a then ninf else if a < 0 then inf else nan
  | inf, finite b => if 0 < b then inf else if b < 0 then ninf else nan
  | ninf, finite b => if 0 < b then ninf else if b < 0 then inf else nan
  | inf, inf => inf
  | inf, ninf => ninf
  | ninf, inf => ninf
  | ninf, ninf => inf

end FVal

/-- A nullable numeric column cell as pandas sees it: null becomes `NaN`. -/
def toF : Option ℚ → FVal
  | none => FVal.nan
  | some q => FVal.finite q

/-- pandas `Series.fillna(0)`: replaces `NaN` (which also encodes null) by
`0`; infinities are NOT replaced. -/
def fillna0 : FVal → FVal
  | FVal.nan => FVal.finite 0
  | v => v

/-- `Graphs.py` line 64: `(df.tip_amount / df.fare_amount * 100).fillna(0)`
under pandas semantics (null numeric = NaN, IEEE division). -/
def tip_pct_pd (tip fare : Option ℚ) : FVal :=
  fillna0 (FVal.fmul (FVal.fdiv (toF tip) (toF fare)) (FVal.finite 100))

/-- polars `fill_null(0)`: replaces null only; `NaN` and infinities stay. -/
def fill_null0 : Option FVal → FVal
  | none => FVal.finite 0
  | some v => v

/-- Lift a binary `FVal` operation to nullable polars cells: null propagates. -/
def plBin (f : FVal → FVal → FVal) : Option FVal → Option FVal → Option FVal
  | some a, some b => some (f a b)
  | _, _ => none

/-- `app.py` line 67: `((tip_amount / fare_amount) * 100).fill_null(0)` under
polars semantics (null is distinct from NaN and propagates; `fill_null` fills
null only). -/
def tip_pct_pl (tip fare : Option ℚ) : FVal :=
  fill_null0 (plBin FVal.fmul (plBin FVal.fdiv (tip.map FVal.finite) (fare.map FVal.finite))
    (some (FVal.finite 100)))

/-- One raw trip record as read from the parquet file, restricted to the
columns the pipeline uses (`Graphs.py` lines 46-52).  Timestamps are Unix
seconds. -/
structure Row where
  tpep_pickup_datetime : Option ℤ
  tpep_dropoff_datetime : Option ℤ
  PULocationID : Option ℕ
  DOLocationID : Option ℕ
  passenger_count : Option ℕ
  trip_distance : Option ℚ
  fare_amount : Option ℚ
  tip_amount : Option ℚ
  payment_type : Option ℕ
deriving DecidableEq, Repr

/-- `dt.hour` of a Unix-second timestamp (timezone-naive). -/
def hourOf (t : ℤ) : ℕ := (t.emod 86400).toNat / 3600

/-- `dt.dayofweek` / `dt.weekday() - 1`: Monday = 0 .. Sunday = 6.
Day 0 (1970-01-01) was a Thursday, i.e. weekday 3. -/
def weekdayOf (t : ℤ) : ℕ := ((t.fdiv 86400 + 3).emod 7).toNat

/-- `dt.date` as a calendar-day number (floor of days since the epoch). -/
def dateOf (t : ℤ) : ℤ := t.fdiv 86400

/-- `Graphs.py` line 72: the fixed payment-code enumeration; unmapped codes
become null (`Series.map` with a dict). -/
def payMap : ℕ → Option String
  | 1 => some "Credit Card"
  | 2 => some "Cash"
  | 3 => some "No Charge"
  | 4 => some "Dispute"
  | 5 => some "Unknown"
  | _ => none

/-- A trip record of the `Graphs.py` table: the raw columns plus the derived
columns of `load_data` (lines 58-64 and 73). -/
structure Trip extends Row where
  pickup_hour : Option ℕ
  pickup_weekday : Option ℕ
  pickup_date : Option ℤ
  trip_duration_min : Option ℚ
  tip_pct : FVal
  payment_name : Option String
deriving DecidableEq, Repr

/-- `(dropoff - pickup).dt.total_seconds() / 60`: null (NaT/NaN) when either
timestamp is null. -/
def durationMin (pickup dropoff : Option ℤ) : Option ℚ :=
  match pickup, dropoff with
  | some p, some d => some (((d - p : ℤ) : ℚ) / 60)
  | _, _ => none

/-- The per-row derived columns of `Graphs.py` `load_data` (lines 58-64, 73).
`payment_name` is assigned after the row filters in the source, but it is a
pure per-row map, so computing it together with the other derived columns
yields the same table. -/
def deriveG (r : Row) : Trip :=
  { r with
    pickup_hour := r.tpep_pickup_datetime.map hourOf
    pickup_weekday := r.tpep_pickup_datetime.map weekdayOf
    pickup_date := r.tpep_pickup_datetime.map dateOf
    trip_duration_min := durationMin r.tpep_pickup_datetime r.tpep_dropoff_datetime
    tip_pct := tip_pct_pd r.tip_amount r.fare_amount
    payment_name := r.payment_type.bind payMap }

/-- A trip record of the `app.py` table: raw columns plus the derived columns
of lines 62-68 (no payment label in this variant; `tip_pct` uses polars
semantics). -/
structure TripA extends Row where
  pickup_hour : Option ℕ
  pickup_weekday : Option ℕ
  pickup_date : Option ℤ
  trip_duration_min : Option ℚ
  tip_pct : FVal
deriving DecidableEq, Repr

/-- The per-row derived columns of `app.py` `with_columns` (lines 62-68). -/
def deriveA (r : Row) : TripA :=
  { r with
    pickup_hour := r.tpep_pickup_datetime.map hourOf
    pickup_weekday := r.tpep_pickup_datetime.map weekdayOf
    pickup_date := r.tpep_pickup_datetime.map dateOf
    trip_duration_min := durationMin r.tpep_pickup_datetime r.tpep_dropoff_datetime
    tip_pct := tip_pct_pl r.tip_amount r.fare_amount }

/-- `col > c` on a nullable column: a null operand fails the mask (pandas
comparison with NaN is `False`; polars yields null, dropped by `filter`). -/
def oGt (a : Option ℚ) (c : ℚ) : Bool :=
  match a with
  | some q => decide (c < q)
  | none => false

/-- `col < c` on a nullable column, null fails. -/
def oLt (a : Option ℚ) (c : ℚ) : Bool :=
  match a with
  | some q => decide (q < c)
  | none => false

/-- `col >= c` on a nullable rational column, null fails. -/
def oGe (a : Option ℚ) (c : ℚ) : Bool :=
  match a with
  | some q => decide (c ≤ q)
  | none => false

/-- `col <= c` on a nullable rational column, null fails. -/
def oLe (a : Option ℚ) (c : ℚ) : Bool :=
  match a with
  | some q => decide (q ≤ c)
  | none => false

/-- `col >= c` on a nullable integer (hour/date) column, null fails. -/
def oGeZ (a : Option ℤ) (c : ℤ) : Bool :=
  match a with
  | some q => decide (c ≤ q)
  | none => false

/-- `col <= c` on a nullable integer (hour/date) column, null fails. -/
def oLeZ (a : Option ℤ) (c : ℤ) : Bool :=
  match a with
  | some q => decide (q ≤ c)
  | none => false

/-- `col >= c` on a nullable natural (hour) column, null fails. -/
def oGeN (a : Option ℕ) (c : ℕ) : Bool :=
  match a with
  | some q => decide (c ≤ q)
  | none => false

/-- `col <= c` on a nullable natural (hour) column, null fails. -/
def oLeN (a : Option ℕ) (c : ℕ) : Bool :=
  match a with
  | some q => decide (q ≤ c)
  | none => false

/-- `dropoff > pickup` on two nullable timestamps, null fails. -/
def oGtPair (dropoff pickup : Option ℤ) : Bool :=
  match dropoff, pickup with
  | some d, some p => decide (p < d)
  | _, _ => false

/-- The `Graphs.py` loader/cleaner (`load_data`, lines 58-73): derive the
per-row columns, then keep rows with `0 < fare_amount < 500` (line 66) and
`1 < trip_duration_min < 180` (line 67).  This variant applies no distance,
location-id or explicit null filter. -/
def cleanGraphs (rows : List Row) : List Trip :=
  ((rows.map deriveG).filter
      (fun t => oGt t.fare_amount 0 && oLt t.fare_amount 500)).filter
    (fun t => oGt t.trip_duration_min 1 && oLt t.trip_duration_min 180)

/-- The `app.py` loader/cleaner (lines 62-73): derive the per-row columns,
drop rows with null timestamps/location-ids/fare (`drop_nulls`, line 70),
keep strictly positive non-null distance (line 71), `0 < fare < 500`
(line 72) and `dropoff > pickup` (line 73).  This variant applies no
duration bound. -/
def cleanApp (rows : List Row) : List TripA :=
  ((((rows.map deriveA).filter
        (fun t => t.tpep_pickup_datetime.isSome && t.tpep_dropoff_datetime.isSome &&
          t.PULocationID.isSome && t.DOLocationID.isSome && t.fare_amount.isSome)).filter
      (fun t => t.trip_distance.isSome && oGt t.trip_distance 0)).filter
    (fun t => oGt t.fare_amount 0 && oLt t.fare_amount 500)).filter
    (fun t => oGtPair t.tpep_dropoff_datetime t.tpep_pickup_datetime)

/-- The sidebar filter configuration of `Graphs.py` (lines 83-136): date
range (day numbers), hour range, passenger selection (`none` = "All"),
fare range, distance range and the payment multiselect. -/
structure FilterConfig where
  start_date : ℤ
  end_date : ℤ
  hour_min : ℕ
  hour_max : ℕ
  passengers : Option ℕ
  fare_min : ℚ
  fare_max : ℚ
  dist_min : ℚ
  dist_max : ℚ
  payments : List String
deriving DecidableEq, Repr

/-- The single boolean-mask filter of `Graphs.py` lines 140-149: the
conjunction of the date, hour, fare and distance range comparisons. -/
def baseMask (cfg : FilterConfig) (t : Trip) : Bool :=
  oGeZ t.pickup_date cfg.start_date && oLeZ t.pickup_date cfg.end_date &&
  oGeN t.pickup_hour cfg.hour_min && oLeN t.pickup_hour cfg.hour_max &&
  oGe t.fare_amount cfg.fare_min && oLe t.fare_amount cfg.fare_max &&
  oGe t.trip_distance cfg.dist_min && oLe t.trip_distance cfg.dist_max

/-- `Graphs.py` lines 151-152: `if selected_passengers != 'All':` filter on
exact passenger-count equality (comparison with a null cell is `False`). -/
def passengerStage (sel : Option ℕ) (df : List Trip) : List Trip :=
  match sel with
  | none => df
  | some n => df.filter (fun t => t.passenger_count == some n)

/-- `Graphs.py` line 155 membership test: `payment_name.isin(selected)`;
a null label is never a member. -/
def paymentIsin (label : Option String) (sel : List String) : Bool :=
  match label with
  | some l => decide (l ∈ sel)
  | none => false

/-- `Graphs.py` lines 154-155: `if selected_payments:` — the `isin` filter
runs only when the multiselect is non-empty; an empty selection skips the
filter entirely. -/
def paymentStage (sel : List String) (df : List Trip) : List Trip :=
  match sel with
  | [] => df
  | _ :: _ => df.filter (fun t => paymentIsin t.payment_name sel)

/-- The filter engine of `Graphs.py` (lines 140-155): the boolean-mask
filter, then the conditional passenger filter, then the conditional payment
filter. -/
def filteredDf (cfg : FilterConfig) (df : List Trip) : List Trip :=
  paymentStage cfg.payments (passengerStage cfg.passengers (df.filter (baseMask cfg)))

/-- The specification's per-row predicate: the conjunction of all active
predicates of the configuration.  The passenger predicate is active unless
the selection is "All"; the payment predicate is active unless the
selection is empty. -/
def SpecPass (cfg : FilterConfig) (t : Trip) : Prop :=
  (∃ d, t.pickup_date = some d ∧ cfg.start_date ≤ d ∧ d ≤ cfg.end_date) ∧
  (∃ h, t.pickup_hour = some h ∧ cfg.hour_min ≤ h ∧ h ≤ cfg.hour_max) ∧
  (∃ f, t.fare_amount = some f ∧ cfg.fare_min ≤ f ∧ f ≤ cfg.fare_max) ∧
  (∃ m, t.trip_distance = some m ∧ cfg.dist_min ≤ m ∧ m ≤ cfg.dist_max) ∧
  (cfg.passengers = none ∨ ∃ n, cfg.passengers = some n ∧ t.passenger_count = some n) ∧
  (cfg.payments = [] ∨ ∃ l, t.payment_name = some l ∧ l ∈ cfg.payments)

/-- The outcome of one `requests.get` call. -/
inductive FetchResult where
  | success (body : List ℕ)
  | httpError (status : ℕ) (body : List ℕ)
  | netError
deriving DecidableEq, Repr

/-- Observable effects of one `download_file` call: the bytes written to the
cache path (if any), whether a user-visible error was emitted (`st.error`),
whether the run halted (`st.stop` or an uncaught exception), and the
function's return value (`none` when it never returns). -/
structure FetchOutcome where
  written : Option (List ℕ)
  errorShown : Bool
  halted : Bool
  returned : Option Bool
deriving DecidableEq, Repr

/-- `Graphs.py` `download_file` (lines 22-39): on a cache hit, return
`False` without touching the network.  Otherwise `requests.get` with
`raise_for_status()` inside `try`: a network error or a non-success status
raises before anything is written, and the handler runs `st.error` followed
by `st.stop()`. -/
def downloadGraphs (fileExists : Bool) (resp : FetchResult) : FetchOutcome :=
  if fileExists then
    { written := none, errorShown := false, halted := false, returned := some false }
  else
    match resp with
    | FetchResult.success b =>
        { written := some b, errorShown := false, halted := false, returned := some true }
    | FetchResult.httpError _ _ =>
        { written := none, errorShown := true, halted := true, returned := none }
    | FetchResult.netError =>
        { written := none, errorShown := true, halted := true, returned := none }

/-- `app.py` `download_file` (lines 41-56): on a cache hit, return `False`.
Otherwise `requests.get` with no `raise_for_status` and no `try`: a network
error propagates as an uncaught exception (no `st.error` is emitted), while
a response with a non-success HTTP status is treated like success — its body
is written to the cache path and the function returns `True`. -/
def downloadApp (fileExists : Bool) (resp : FetchResult) : FetchOutcome :=
  if fileExists then
    { written := none, errorShown := false, halted := false, returned := some false }
  else
    match resp with
    | FetchResult.success b =>
        { written := some b, errorShown := false, halted := false, returned := some true }
    | FetchResult.httpError _ b =>
        { written := some b, errorShown := false, halted := false, returned := some true }
    | FetchResult.netError =>
        { written := none, errorShown := false, halted := true, returned := none }

/-- Descending-by-count order on `(key, count)` pairs, the order of pandas
`value_counts`. -/
def descByCount {α : Type} (a b : α × ℕ) : Prop := b.2 ≤ a.2

instance {α : Type} : IsTotal (α × ℕ) descByCount := ⟨fun a b => Nat.le_total b.2 a.2⟩

instance {α : Type} : IsTrans (α × ℕ) descByCount :=
  ⟨fun _ _ _ h1 h2 => Nat.le_trans h2 h1⟩

instance {α : Type} : DecidableRel (@descByCount α) := fun a b => Nat.decLe b.2 a.2

/-- pandas `Series.value_counts()` (with the default `dropna`, applied to an
already null-free list): one `(value, count)` pair per distinct value,
sorted by count descending.  The stable sort fixes the deterministic
tie-break. -/
def valueCounts {α : Type} [DecidableEq α] (xs : List α) : List (α × ℕ) :=
  List.insertionSort descByCount (xs.dedup.map (fun k => (k, xs.count k)))

/-- Tab 1 (`Graphs.py` line 174): `value_counts` of the payment label, nulls
dropped. -/
def paymentCounts (f : List Trip) : List (String × ℕ) :=
  valueCounts (f.filterMap (fun t => t.payment_name))

/-- Mean of a column with nulls skipped: `none` (NaN) when no value exists,
as the mean of an empty set is undefined. -/
def meanOpt (l : List ℚ) : Option ℚ :=
  if l.length = 0 then none else some (l.sum / l.length)

/-- pandas `Series.median()` over the non-null values: middle element of the
sorted list, or the average of the two middle elements for an even length. -/
def medianQ (l : List ℚ) : Option ℚ :=
  let s := List.insertionSort (fun a b : ℚ => a ≤ b) l
  if s.length = 0 then none
  else if s.length % 2 = 1 then some (s.getD (s.length / 2) 0)
  else some ((s.getD (s.length / 2 - 1) 0 + s.getD (s.length / 2) 0) / 2)

/-- Membership of a value in equal-width bin `i` of 50 over `[lo, hi]`; the
last bin is closed on the right. -/
def inBin (lo hi : ℚ) (i : ℕ) (x : ℚ) : Bool :=
  let w := (hi - lo) / 50
  decide (lo + i * w ≤ x) &&
    (decide (x < lo + (i + 1) * w) || (decide (i = 49) && decide (x ≤ hi)))

/-- Tab 2 (`Graphs.py` lines 192-204): a 50-bin histogram of the trip
distances over their observed range, plus the median distance marker. -/
def distanceHist (f : List Trip) : List ℕ × Option ℚ :=
  let xs := f.filterMap (fun t => t.trip_distance)
  match xs.min?, xs.max? with
  | some lo, some hi =>
      ((List.range 50).map (fun i => (xs.filter (inBin lo hi i)).length), medianQ xs)
  | _, _ => (List.replicate 50 0, none)

/-- Tab 3 (`Graphs.py` line 213): `groupby('pickup_hour')['fare_amount'].mean()`
— one entry per hour present in the filtered table (null hours dropped by
`groupby`), keys in ascending order, value the mean fare of the group. -/
def hourlyFare (f : List Trip) : List (ℕ × Option ℚ) :=
  (List.insertionSort (fun a b : ℕ => a ≤ b) (f.filterMap (fun t => t.pickup_hour)).dedup).map
    (fun h => (h, meanOpt ((f.filter (fun t => t.pickup_hour == some h)).filterMap
      (fun t => t.fare_amount))))

/-- The `groupby(['pickup_weekday','pickup_hour'])` key of a row: `none`
(dropped by `groupby`) when either component is null. -/
def keyWH (t : Trip) : Option (ℕ × ℕ) :=
  match t.pickup_weekday, t.pickup_hour with
  | some w, some h => some (w, h)
  | _, _ => none

/-- `Graphs.py` line 230, `groupby([...]).size()`: one `(key, group size)`
pair per distinct observed `(weekday, hour)` key. -/
def groupSizeWH (f : List Trip) : List ((ℕ × ℕ) × ℕ) :=
  (f.filterMap keyWH).dedup.map (fun k => (k, (f.filterMap keyWH).count k))

/-- Association lookup with a default, the cell-filling step of
`unstack(fill_value=0)` / `reindex(..., fill_value=0)`. -/
def lookupD {α β : Type} [BEq α] (l : List (α × β)) (k : α) (d : β) : β :=
  match l.lookup k with
  | some v => v
  | none => d

/-- Tab 4 (`Graphs.py` lines 230-232): the heatmap matrix.  `unstack` with
`fill_value=0` followed by `reindex` of the columns to `range(24)` and of the
index to `range(7)` (both with `fill_value=0`) produce the full 7×24 grid in
which cell `(w, h)` holds the group size for key `(w, h)`, or `0` when that
key was not observed. -/
def heatmapData (f : List Trip) : List (List ℕ) :=
  (List.range 7).map (fun w => (List.range 24).map (fun h => lookupD (groupSizeWH f) (w, h) 0))

/-- Ascending-by-count order on `(id, zone, count)` triples, the order of the
final `sort_values('trip_count', ascending=True)`. -/
def ascByCount (a b : ℕ × String × ℕ) : Prop := a.2.2 ≤ b.2.2

instance : IsTotal (ℕ × String × ℕ) ascByCount := ⟨fun a b => Nat.le_total a.2.2 b.2.2⟩

instance : IsTrans (ℕ × String × ℕ) ascByCount :=
  ⟨fun _ _ _ h1 h2 => Nat.le_trans h1 h2⟩

instance : DecidableRel ascByCount := fun a b => Nat.decLe a.2.2 b.2.2

/-- The pickup-zone id column with nulls dropped (the values `value_counts`
counts in `Graphs.py` line 252). -/
def pickupIds (f : List Trip) : List ℕ :=
  f.filterMap (fun t => t.PULocationID)

/-- The left merge with the zone lookup plus
`fillna(zone_counts['LocationID'].astype(str))` (`Graphs.py` lines 254-255):
the zone name of an id, falling back to the stringified id when the lookup
has no entry. -/
def zoneName (zl : List (ℕ × String)) (id : ℕ) : String :=
  match zl.lookup id with
  | some z => z
  | none => toString id

/-- The category set created by `astype('category')` (`Graphs.py` line 69):
the sorted distinct non-null values of the column at cast time, i.e. of the
cleaned table's pickup-zone column. -/
def categoriesOf (xs : List ℕ) : List ℕ :=
  List.insertionSort (fun a b : ℕ => a ≤ b) xs.dedup

/-- pandas `Series.value_counts()` on a categorical column: one
`(category, count)` pair per CATEGORY of the dtype — including categories
absent from the series, which get count 0 — sorted by count descending.
The stable sort fixes the deterministic tie-break. -/
def valueCountsCat (cats : List ℕ) (xs : List ℕ) : List (ℕ × ℕ) :=
  List.insertionSort descByCount (cats.map (fun k => (k, xs.count k)))

/-- Tab 5 (`Graphs.py` lines 252-256): `value_counts` of the pickup-zone
column — categorical since line 69, so its index is the category set of the
CLEANED table `df` and zones absent from the filtered table `f` appear with
count 0 — merged with the zone lookup (with stringified-id fallback),
`head(10)`, then re-sorted ascending by count for the bottom-to-top bar
layout. -/
def topZones (df f : List Trip) (zl : List (ℕ × String)) : List (ℕ × String × ℕ) :=
  let zone_counts := (valueCountsCat (categoriesOf (pickupIds df)) (pickupIds f)).map
    (fun p => (p.1, zoneName zl p.1, p.2))
  List.insertionSort ascByCount (zone_counts.take 10)

/-- Outcome of one render pass: either the "no rows match" short-circuit or
the five chart payloads. -/
inductive RenderOutcome where
  | noRowsMatch
  | charts (payments : List (String × ℕ)) (hist : List ℕ × Option ℚ)
      (hourly : List (ℕ × Option ℚ)) (heat : List (List ℕ))
      (zones : List (ℕ × String × ℕ))
deriving DecidableEq, Repr

/-- One render pass of `Graphs.py` (lines 140-269): apply the filters; if no
row survives, emit the warning and `st.stop()` before any chart builder runs
(lines 162-164); otherwise compute the five chart payloads. -/
def renderPass (cfg : FilterConfig) (df : List Trip) (zl : List (ℕ × String)) :
    RenderOutcome :=
  let f := filteredDf cfg df
  if f.length = 0 then RenderOutcome.noRowsMatch
  else RenderOutcome.charts (paymentCounts f) (distanceHist f) (hourlyFare f)
    (heatmapData f) (topZones df f zl)

/-- A well-formed example row: pickup 1970-01-01 00:00:00 (hour 0,
weekday Thu = 3, day 0), 10-minute trip, fare 10, tip 1, credit card. -/
def row0 : Row :=
  { tpep_pickup_datetime := some 0
    tpep_dropoff_datetime := some 600
    PULocationID := some 1
    DOLocationID := some 2
    passenger_count := some 1
    trip_distance := some 2
    fare_amount := some 10
    tip_amount := some 1
    payment_type := some 1 }

/-- A well-formed example row at pickup hour 23 of day 0. -/
def row23 : Row :=
  { row0 with
    tpep_pickup_datetime := some 82800
    tpep_dropoff_datetime := some 83400 }

/-- A row with zero trip distance and a null pickup-zone id that nevertheless
satisfies the fare and duration bounds of the `Graphs.py` cleaner. -/
def rowBad : Row :=
  { row0 with
    PULocationID := none
    trip_distance := some 0
    tpep_dropoff_datetime := some 300 }

/-- A row with a null tip amount that satisfies the fare and duration bounds
of the `Graphs.py` cleaner. -/
def rowNoTip : Row :=
  { row0 with tip_amount := none }

/-- A fully permissive filter configuration for day 0 with an empty payment
selection. -/
def cfgWide : FilterConfig :=
  { start_date := 0
    end_date := 0
    hour_min := 0
    hour_max := 23
    passengers := none
    fare_min := 0
    fare_max := 100
    dist_min := 0
    dist_max := 10
    payments := [] }

/-- The configuration of the empty-result scenario: hour range [1, 22] over a
table whose rows sit at hours 0 and 23. -/
def cfgHours : FilterConfig :=
  { cfgWide with hour_min := 1, hour_max := 22 }

/-- The example row with pickup zone `k` and passenger count `p`. -/
def rowPU (k p : ℕ) : Row :=
  { row0 with PULocationID := some k, passenger_count := some p }

/-- A cleaned table with eleven distinct pickup zones; only the zone-1 row
has passenger count 1. -/
def dfEleven : List Trip :=
  [deriveG (rowPU 1 1), deriveG (rowPU 2 2), deriveG (rowPU 3 2), deriveG (rowPU 4 2),
   deriveG (rowPU 5 2), deriveG (rowPU 6 2), deriveG (rowPU 7 2), deriveG (rowPU 8 2),
   deriveG (rowPU 9 2), deriveG (rowPU 10 2), deriveG (rowPU 11 2)]

/-- The permissive configuration restricted to exactly one passenger. -/
def cfgOnePax : FilterConfig :=
  { cfgWide with passengers := some 1 }

theorem oGe_iff (a : Option ℚ) (c : ℚ) : oGe a c = true ↔ ∃ q, a = some q ∧ c ≤ q := by
  cases a <;> simp [oGe]

theorem oLe_iff (a : Option ℚ) (c : ℚ) : oLe a c = true ↔ ∃ q, a = some q ∧ q ≤ c := by
  cases a <;> simp [oLe]

theorem oGt_iff (a : Option ℚ) (c : ℚ) : oGt a c = true ↔ ∃ q, a = some q ∧ c < q := by
  cases a <;> simp [oGt]

theorem oLt_iff (a : Option ℚ) (c : ℚ) : oLt a c = true ↔ ∃ q, a = some q ∧ q < c := by
  cases a <;> simp [oLt]

theorem oGeZ_iff (a : Option ℤ) (c : ℤ) : oGeZ a c = true ↔ ∃ q, a = some q ∧ c ≤ q := by
  cases a <;> simp [oGeZ]

theorem oLeZ_iff (a : Option ℤ) (c : ℤ) : oLeZ a c = true ↔ ∃ q, a = some q ∧ q ≤ c := by
  cases a <;> simp [oLeZ]

theorem oGeN_iff (a : Option ℕ) (c : ℕ) : oGeN a c = true ↔ ∃ q, a = some q ∧ c ≤ q := by
  cases a <;> simp [oGeN]

theorem oLeN_iff (a : Option ℕ) (c : ℕ) : oLeN a c = true ↔ ∃ q, a = some q ∧ q ≤ c := by
  cases a <;> simp [oLeN]

theorem oGtPair_iff (d p : Option ℤ) :
    oGtPair d p = true ↔ ∃ x y, d = some x ∧ p = some y ∧ y < x := by
  cases d <;> cases p <;> simp [oGtPair]

theorem paymentIsin_iff (lab : Option String) (sel : List String) :
    paymentIsin lab sel = true ↔ ∃ l, lab = some l ∧ l ∈ sel := by
  cases lab <;> simp [paymentIsin]

theorem baseMask_iff (cfg : FilterConfig) (t : Trip) :
    baseMask cfg t = true ↔
      (∃ d, t.pickup_date = some d ∧ cfg.start_date ≤ d ∧ d ≤ cfg.end_date) ∧
      (∃ h, t.pickup_hour = some h ∧ cfg.hour_min ≤ h ∧ h ≤ cfg.hour_max) ∧
      (∃ f, t.fare_amount = some f ∧ cfg.fare_min ≤ f ∧ f ≤ cfg.fare_max) ∧
      (∃ m, t.trip_distance = some m ∧ cfg.dist_min ≤ m ∧ m ≤ cfg.dist_max) := by
  cases hd : t.pickup_date <;> cases hh : t.pickup_hour <;>
    cases hf : t.fare_amount <;> cases hm : t.trip_distance <;>
      simp [baseMask, oGeZ, oLeZ, oGeN, oLeN, oGe, oLe, hd, hh, hf, hm,
        Bool.and_eq_true, decide_eq_true_eq, and_assoc]

theorem mem_passengerStage (sel : Option ℕ) (df : List Trip) (t : Trip) :
    t ∈ passengerStage sel df ↔
      t ∈ df ∧ (sel = none ∨ ∃ n, sel = some n ∧ t.passenger_count = some n) := by
  cases sel <;> simp [passengerStage, List.mem_filter]

theorem mem_paymentStage (sel : List String) (df : List Trip) (t : Trip) :
    t ∈ paymentStage sel df ↔
      t ∈ df ∧ (sel = [] ∨ ∃ l, t.payment_name = some l ∧ l ∈ sel) := by
  cases sel <;> simp [paymentStage, List.mem_filter, paymentIsin_iff]

/-- C1.  The filter engine keeps exactly the rows of its input table that
satisfy the conjunction of all active predicates: a row is in `filteredDf`
iff it is in the cleaned table and satisfies the date-range, hour-range,
fare-range and distance-range predicates, the passenger predicate (active
unless the selection is "All") and the payment predicate (active unless the
selection is empty). -/
theorem mem_filteredDf_iff (cfg : FilterConfig) (df : List Trip) (t : Trip) :
    t ∈ filteredDf cfg df ↔ t ∈ df ∧ SpecPass cfg t := by
  unfold filteredDf SpecPass
  rw [mem_paymentStage, mem_passengerStage, List.mem_filter, baseMask_iff]
  tauto

theorem passengerStage_sublist (sel : Option ℕ) (df : List Trip) :
    List.Sublist (passengerStage sel df) df := by
  cases sel with
  | none => exact List.Sublist.refl df
  | some n => exact List.filter_sublist df

theorem paymentStage_sublist (sel : List String) (df : List Trip) :
    List.Sublist (paymentStage sel df) df := by
  cases sel with
  | nil => exact List.Sublist.refl df
  | cons a l => exact List.filter_sublist df

/-- C10.  The filter engine only deletes rows and never reorders them: for
every configuration the filtered table is a sublist (ordered subsequence) of
the input table, so surviving rows keep their relative order. -/
theorem filteredDf_sublist (cfg : FilterConfig) (df : List Trip) :
    List.Sublist (filteredDf cfg df) df :=
  (paymentStage_sublist cfg.payments _).trans
    ((passengerStage_sublist cfg.passengers _).trans (List.filter_sublist df))

/-- C2.  The `app.py` variant of `download_file` violates the fetch-failure
contract: with no local file and a non-success HTTP response, it writes the
response body to the cache path, shows no user-visible error, does not halt,
and returns `True` as if the download had succeeded.  (The `Graphs.py`
variant behaves as the claim requires: nothing is written, the error is
shown, and the run stops.) -/
theorem downloadApp_writes_nonsuccess_body :
    downloadApp false (FetchResult.httpError 404 [60, 104, 116]) =
      { written := some [60, 104, 116], errorShown := false, halted := false,
        returned := some true } ∧
    downloadGraphs false (FetchResult.httpError 404 [60, 104, 116]) =
      { written := none, errorShown := true, halted := true, returned := none } := by
  decide

/-- C3.  The derived `tip_pct` of an input row with `fare_amount = 0` and
`tip_amount = 5` is `inf`, not the required fallback `0`: IEEE division of
`5` by `0` yields `+inf`, and neither pandas `fillna(0)` nor polars
`fill_null(0)` replaces an infinity. -/
theorem tip_pct_zero_fare_is_inf :
    tip_pct_pd (some 5) (some 0) = FVal.inf ∧
    tip_pct_pl (some 5) (some 0) = FVal.inf ∧
    FVal.inf ≠ FVal.finite 0 := by
  decide

/-- C6.  Whenever the filtered table is empty, the render pass emits the
"no rows match" outcome and stops before any of the five chart builders
runs. -/
theorem renderPass_skips_charts (cfg : FilterConfig) (df : List Trip)
    (zl : List (ℕ × String)) (h : filteredDf cfg df = []) :
    renderPass cfg df zl = RenderOutcome.noRowsMatch := by
  simp [renderPass, h]

/-- Witness for C6, following the spec scenario: a table with rows at hours
0 and 23 only and the hour-range filter [1, 22] produce an empty filtered
table, so the pass short-circuits to "no rows match". -/
theorem renderPass_skips_charts_witness :
    renderPass cfgHours [deriveG row0, deriveG row23] [] = RenderOutcome.noRowsMatch :=
  renderPass_skips_charts cfgHours [deriveG row0, deriveG row23] [] (by decide)

/-- Counterexample for C4 as stated: with an empty payment selection the
code skips the `isin` filter (`if selected_payments:`), so a row passing all
other predicates is kept — the filtered table is not empty. -/
theorem filteredDf_empty_payments_counterexample :
    cfgWide.payments = [] ∧ filteredDf cfgWide [deriveG row0] ≠ [] := by
  decide

/-- C4 (amended).  When the payment label set is empty the payment filter is
skipped and every row passes that stage; when it is non-empty, a row survives
the stage iff it was in the input and its (non-null) payment label is a
member of the set. -/
theorem paymentStage_semantics :
    (∀ df : List Trip, paymentStage [] df = df) ∧
    (∀ (sel : List String) (df : List Trip) (t : Trip), sel ≠ [] →
      (t ∈ paymentStage sel df ↔
        t ∈ df ∧ ∃ l, t.payment_name = some l ∧ l ∈ sel)) := by
  constructor
  · intro df
    rfl
  · intro sel df t hsel
    rw [mem_paymentStage]
    simp [hsel]

/-- Witness for C4: the empty selection keeps the example row; the singleton
selection "Credit Card" keeps it iff its label is a member. -/
theorem paymentStage_semantics_witness :
    paymentStage [] [deriveG row0] = [deriveG row0] ∧
    (deriveG row0 ∈ paymentStage ["Credit Card"] [deriveG row0] ↔
      deriveG row0 ∈ [deriveG row0] ∧
        ∃ l, (deriveG row0).payment_name = some l ∧ l ∈ ["Credit Card"]) :=
  ⟨paymentStage_semantics.1 [deriveG row0],
   paymentStage_semantics.2 ["Credit Card"] [deriveG row0] (deriveG row0) (by decide)⟩

theorem cleanGraphs_row0_eval : cleanGraphs [row0] = [deriveG row0] := by
  norm_num [cleanGraphs, deriveG, row0, durationMin, oGt, oLt, List.filter]

theorem cleanApp_row0_eval : cleanApp [row0] = [deriveA row0] := by
  norm_num [cleanApp, deriveA, row0, durationMin, oGt, oLt, oGtPair, List.filter]

theorem cleanGraphs_rowBad_eval : cleanGraphs [rowBad] = [deriveG rowBad] := by
  norm_num [cleanGraphs, deriveG, rowBad, row0, durationMin, oGt, oLt, List.filter]

theorem cleanGraphs_rowNoTip_eval : cleanGraphs [rowNoTip] = [deriveG rowNoTip] := by
  norm_num [cleanGraphs, deriveG, rowNoTip, row0, durationMin, oGt, oLt, List.filter]

/-- Counterexample for C5 as stated: the `Graphs.py` cleaner keeps a row
with zero trip distance and a null pickup-zone id, because this variant
filters only on fare and duration. -/
theorem cleanGraphs_counterexample :
    deriveG rowBad ∈ cleanGraphs [rowBad] ∧
    (deriveG rowBad).trip_distance = some 0 ∧
    (deriveG rowBad).PULocationID = none := by
  refine ⟨?_, by decide, by decide⟩
  rw [cleanGraphs_rowBad_eval]
  exact List.mem_singleton.mpr rfl

/-- C5 (amended).  Each cleaning variant enforces its own invariants: every
row of the `app.py` cleaned table has non-null timestamps, location ids and
fare, strictly positive distance, fare in (0, 500) and dropoff strictly
after pickup (no duration bound); every row of the `Graphs.py` cleaned table
has fare in (0, 500), duration in (1, 180) minutes and (hence) non-null
timestamps with dropoff strictly after pickup — but not necessarily positive
distance or present location ids. -/
theorem clean_invariants :
    (∀ rows : List Row, ∀ t ∈ cleanApp rows,
      t.tpep_pickup_datetime.isSome = true ∧ t.tpep_dropoff_datetime.isSome = true ∧
      t.PULocationID.isSome = true ∧ t.DOLocationID.isSome = true ∧
      (∃ m, t.trip_distance = some m ∧ 0 < m) ∧
      (∃ f, t.fare_amount = some f ∧ 0 < f ∧ f < 500) ∧
      (∃ p d, t.tpep_pickup_datetime = some p ∧ t.tpep_dropoff_datetime = some d ∧ p < d)) ∧
    (∀ rows : List Row, ∀ t ∈ cleanGraphs rows,
      (∃ f, t.fare_amount = some f ∧ 0 < f ∧ f < 500) ∧
      (∃ u, t.trip_duration_min = some u ∧ 1 < u ∧ u < 180) ∧
      (∃ p d, t.tpep_pickup_datetime = some p ∧ t.tpep_dropoff_datetime = some d ∧ p < d)) := by
  constructor
  · intro rows t ht
    simp only [cleanApp] at ht
    obtain ⟨ht3, hord⟩ := List.mem_filter.mp ht
    obtain ⟨ht2, hfare⟩ := List.mem_filter.mp ht3
    obtain ⟨ht1, hdist⟩ := List.mem_filter.mp ht2
    obtain ⟨hmem, hnulls⟩ := List.mem_filter.mp ht1
    simp only [Bool.and_eq_true] at hnulls hdist hfare
    obtain ⟨⟨⟨⟨hp, hd⟩, hpu⟩, hdo⟩, hfv⟩ := hnulls
    obtain ⟨m, hm, hm0⟩ := (oGt_iff _ _).mp hdist.2
    obtain ⟨f, hf, hf0⟩ := (oGt_iff _ _).mp hfare.1
    obtain ⟨f2, hf2, hf500⟩ := (oLt_iff _ _).mp hfare.2
    rw [hf] at hf2
    injection hf2 with hf2e
    subst hf2e
    obtain ⟨x, y, hx, hy, hyx⟩ := (oGtPair_iff _ _).mp hord
    exact ⟨hp, hd, hpu, hdo, ⟨m, hm, hm0⟩, ⟨f, hf, hf0, hf500⟩, ⟨y, x, hy, hx, hyx⟩⟩
  · intro rows t ht
    simp only [cleanGraphs] at ht
    obtain ⟨ht1, hdur⟩ := List.mem_filter.mp ht
    obtain ⟨hmem, hfare⟩ := List.mem_filter.mp ht1
    simp only [Bool.and_eq_true] at hfare hdur
    obtain ⟨f, hf, hf0⟩ := (oGt_iff _ _).mp hfare.1
    obtain ⟨f2, hf2, hf500⟩ := (oLt_iff _ _).mp hfare.2
    rw [hf] at hf2
    injection hf2 with hf2e
    subst hf2e
    obtain ⟨u, hu, hu1⟩ := (oGt_iff _ _).mp hdur.1
    obtain ⟨u2, hu2, hu180⟩ := (oLt_iff _ _).mp hdur.2
    rw [hu] at hu2
    injection hu2 with hu2e
    subst hu2e
    obtain ⟨r, hr, rfl⟩ := List.mem_map.mp hmem
    refine ⟨⟨f, hf, hf0, hf500⟩, ⟨u, hu, hu1, hu180⟩, ?_⟩
    have hu' : durationMin r.tpep_pickup_datetime r.tpep_dropoff_datetime = some u := hu
    cases hpk : r.tpep_pickup_datetime with
    | none => rw [hpk] at hu'; exact absurd hu' (by simp [durationMin])
    | some p =>
      cases hdr : r.tpep_dropoff_datetime with
      | none => rw [hpk, hdr] at hu'; exact absurd hu' (by simp [durationMin])
      | some d =>
        rw [hpk, hdr] at hu'
        simp only [durationMin, Option.some.injEq] at hu'
        have h60 : (60 : ℚ) < ((d - p : ℤ) : ℚ) := by
          rw [← hu'] at hu1
          have := (lt_div_iff₀ (by norm_num : (0 : ℚ) < 60)).mp hu1
          linarith
        have hZ : (60 : ℤ) < d - p := by exact_mod_cast h60
        exact ⟨p, d, by simp [deriveG, hpk], by simp [deriveG, hdr], by omega⟩

/-- Witness for C5: the example row survives both cleaners and exhibits the
fare and duration invariants. -/
theorem clean_invariants_witness :
    (∃ f, (deriveA row0).fare_amount = some f ∧ 0 < f ∧ f < 500) ∧
    (∃ u, (deriveG row0).trip_duration_min = some u ∧ 1 < u ∧ u < 180) :=
  ⟨(clean_invariants.1 [row0] (deriveA row0)
      (by simp [cleanApp_row0_eval])).2.2.2.2.2.1,
   (clean_invariants.2 [row0] (deriveG row0)
      (by simp [cleanGraphs_row0_eval])).2.1⟩

/-- C9 (amended).  On the `Graphs.py` cleaned table the fare is present and
strictly positive, so the division in `tip_pct` is well-defined and the
zero-fare branch of the fallback is unreachable: whenever the tip is
present, `tip_pct` equals `tip / fare * 100` exactly; the `fillna(0)`
fallback still fires when the tip itself is null, yielding `0`. -/
theorem cleanGraphs_tip_pct (rows : List Row) : ∀ t ∈ cleanGraphs rows,
    ∃ f, t.fare_amount = some f ∧ 0 < f ∧
      (∀ q, t.tip_amount = some q → t.tip_pct = FVal.finite (q / f * 100)) ∧
      (t.tip_amount = none → t.tip_pct = FVal.finite 0) := by
  intro t ht
  simp only [cleanGraphs] at ht
  obtain ⟨ht1, -⟩ := List.mem_filter.mp ht
  obtain ⟨hmem, hfare⟩ := List.mem_filter.mp ht1
  simp only [Bool.and_eq_true] at hfare
  obtain ⟨f, hf, hf0⟩ := (oGt_iff _ _).mp hfare.1
  obtain ⟨r, hr, rfl⟩ := List.mem_map.mp hmem
  have hfr : r.fare_amount = some f := hf
  refine ⟨f, hf, hf0, ?_, ?_⟩
  · intro q hq
    have hqr : r.tip_amount = some q := hq
    have hpd : (deriveG r).tip_pct = tip_pct_pd r.tip_amount r.fare_amount := rfl
    rw [hpd, hqr, hfr]
    have hne : f ≠ 0 := ne_of_gt hf0
    simp [tip_pct_pd, toF, FVal.fdiv, FVal.fmul, fillna0, hne]
  · intro hq
    have hqr : r.tip_amount = none := hq
    have hpd : (deriveG r).tip_pct = tip_pct_pd r.tip_amount r.fare_amount := rfl
    rw [hpd, hqr, hfr]
    rfl

/-- Counterexample for C9 as stated: a cleaned row with a null tip has
`tip_pct = 0` by the fallback, so `tip_pct` does not equal a well-defined
`tip / fare * 100` on every cleaned row. -/
theorem cleanGraphs_tip_pct_counterexample :
    deriveG rowNoTip ∈ cleanGraphs [rowNoTip] ∧
    (deriveG rowNoTip).tip_pct = FVal.finite 0 ∧
    ¬∃ tq fq, (deriveG rowNoTip).tip_amount = some tq ∧
      (deriveG rowNoTip).fare_amount = some fq ∧ fq ≠ 0 ∧
      (deriveG rowNoTip).tip_pct = FVal.finite (tq / fq * 100) := by
  refine ⟨?_, by decide, ?_⟩
  · rw [cleanGraphs_rowNoTip_eval]
    exact List.mem_singleton.mpr rfl
  · rintro ⟨tq, fq, htq, -⟩
    have hn : (deriveG rowNoTip).tip_amount = none := by decide
    rw [hn] at htq
    exact Option.noConfusion htq

/-- Witness for C9: the example cleaned row with tip 1 and fare 10 has
`tip_pct = 1 / 10 * 100`. -/
theorem cleanGraphs_tip_pct_witness :
    ∃ f, (deriveG row0).fare_amount = some f ∧ 0 < f ∧
      (∀ q, (deriveG row0).tip_amount = some q →
        (deriveG row0).tip_pct = FVal.finite (q / f * 100)) ∧
      ((deriveG row0).tip_amount = none → (deriveG row0).tip_pct = FVal.finite 0) :=
  cleanGraphs_tip_pct [row0] (deriveG row0) (by simp [cleanGraphs_row0_eval])

theorem lookup_map_self {α β : Type} [BEq α] [LawfulBEq α] (l : List α) (g : α → β)
    (k : α) :
    (l.map (fun x => (x, g x))).lookup k = if k ∈ l then some (g k) else none := by
  induction l with
  | nil => simp
  | cons a l ih =>
    simp only [List.map, List.lookup]
    by_cases hka : k = a
    · subst hka
      simp
    · have hb : (k == a) = false := by simp [hka]
      simp [hb, ih, hka]

theorem lookupD_groupSizeWH (f : List Trip) (k : ℕ × ℕ) :
    lookupD (groupSizeWH f) k 0 = (f.filterMap keyWH).count k := by
  unfold lookupD groupSizeWH
  rw [lookup_map_self]
  by_cases hk : k ∈ (f.filterMap keyWH).dedup
  · simp [hk]
  · simp only [hk, if_neg, if_false]
    exact (List.count_eq_zero.mpr (fun hmem => hk (List.mem_dedup.mpr hmem))).symm

theorem getD_map_range {β : Type} (n w : ℕ) (g : ℕ → β) (d : β) (hw : w < n) :
    ((List.range n).map g).getD w d = g w := by
  simp [List.getD, List.getElem?_map, List.getElem?_range hw]

theorem count_keyWH (f : List Trip) (w h : ℕ) :
    (f.filterMap keyWH).count (w, h) =
      (f.filter (fun t => decide (t.pickup_weekday = some w ∧ t.pickup_hour = some h))).length := by
  rw [List.count_filterMap, ← List.countP_eq_length_filter]
  apply List.countP_congr
  intro t _
  cases hw' : t.pickup_weekday <;> cases hh' : t.pickup_hour <;>
    simp [keyWH, hw', hh', Prod.ext_iff, and_comm]

/-- C7.  For every non-empty filtered table the heatmap aggregate is a 7×24
matrix whose cell `(w, h)` is the number of filtered rows with weekday `w`
and hour `h`; combinations absent from the data are filled with zero (the
count of rows with an absent key is zero). -/
theorem heatmapData_spec (f : List Trip) (hne : f ≠ []) :
    (heatmapData f).length = 7 ∧
    (∀ row ∈ heatmapData f, row.length = 24) ∧
    (∀ w, w < 7 → ∀ h, h < 24 →
      ((heatmapData f).getD w []).getD h 0 =
        (f.filter
          (fun t => decide (t.pickup_weekday = some w ∧ t.pickup_hour = some h))).length) := by
  refine ⟨by simp [heatmapData], ?_, ?_⟩
  · intro row hrow
    obtain ⟨w, hw, rfl⟩ := List.mem_map.mp hrow
    simp
  · intro w hw h hh
    unfold heatmapData
    rw [getD_map_range 7 w _ [] hw, getD_map_range 24 h _ 0 hh,
      lookupD_groupSizeWH, count_keyWH]

/-- Witness for C7: on a one-row table (pickup Thursday 00:xx) the matrix
has 7 rows and the (Thu, 0) cell counts that row. -/
theorem heatmapData_spec_witness :
    (heatmapData [deriveG row0]).length = 7 ∧
    ((heatmapData [deriveG row0]).getD 3 []).getD 0 0 =
      (([deriveG row0]).filter
        (fun t => decide (t.pickup_weekday = some 3 ∧ t.pickup_hour = some 0))).length :=
  ⟨(heatmapData_spec [deriveG row0] (by simp)).1,
   (heatmapData_spec [deriveG row0] (by simp)).2.2 3 (by decide) 0 (by decide)⟩

theorem valueCountsCat_sorted (cats xs : List ℕ) :
    List.Sorted descByCount (valueCountsCat cats xs) :=
  List.sorted_insertionSort _ _

theorem mem_valueCountsCat {cats xs : List ℕ} {p : ℕ × ℕ} :
    p ∈ valueCountsCat cats xs ↔ p.1 ∈ cats ∧ p.2 = xs.count p.1 := by
  obtain ⟨a, b⟩ := p
  unfold valueCountsCat
  rw [List.mem_insertionSort]
  simp only [List.mem_map, Prod.mk.injEq]
  constructor
  · rintro ⟨k, hk, rfl, rfl⟩
    exact ⟨hk, rfl⟩
  · rintro ⟨h1, rfl⟩
    exact ⟨a, h1, rfl, rfl⟩

theorem valueCountsCat_length (cats xs : List ℕ) :
    (valueCountsCat cats xs).length = cats.length := by
  unfold valueCountsCat
  rw [List.length_insertionSort, List.length_map]

theorem filteredDf_dfEleven_eval :
    filteredDf cfgOnePax dfEleven = [deriveG (rowPU 1 1)] := by
  norm_num [filteredDf, paymentStage, passengerStage, baseMask, cfgOnePax, cfgWide,
    dfEleven, deriveG, rowPU, row0, durationMin, hourOf, weekdayOf, dateOf,
    oGeZ, oLeZ, oGeN, oLeN, oGe, oLe, List.filter_cons, List.filter_nil]

/-- Counterexample for C8 as stated: `PULocationID` is categorical
(`Graphs.py` line 69), so `value_counts` on the filtered table has one row
per category of the CLEANED table, zones unobserved in the filtered table
included with count 0, and `head(10)` pads with them.  With a cleaned table
of eleven zones and a filter keeping a single row of zone 1, the output has
10 entries, not the single observed zone — so it is not "exactly the zones
with the 10 highest row counts (all zones when fewer than 10 exist)": it
even contains ids with no row in the filtered table at all. -/
theorem topZones_unobserved_counterexample :
    filteredDf cfgOnePax dfEleven = [deriveG (rowPU 1 1)] ∧
    (pickupIds [deriveG (rowPU 1 1)]).dedup = [1] ∧
    (topZones dfEleven [deriveG (rowPU 1 1)] []).length = 10 ∧
    ¬(∀ e ∈ topZones dfEleven [deriveG (rowPU 1 1)] [],
        e.1 ∈ pickupIds [deriveG (rowPU 1 1)]) :=
  ⟨filteredDf_dfEleven_eval, by decide, by decide, by decide⟩

/-- C8 (amended).  For every non-empty filtered table drawn from the cleaned
table, the top-zones payload is, in order: sorted ascending by count; of
length `min 10 #categories` where the categories are the distinct zones of
the CLEANED table (so `head(10)` pads with zero-count unobserved zones when
the filtered table has fewer than 10 distinct zones); each entry is a
category with its exact filtered-table row count (0 when unobserved) and its
looked-up name (stringified-id fallback); and every category left out of the
output has a count no larger than any output entry — the output is the 10
highest-count rows of the categorical `value_counts`, which coincides with
the claim's observed top-10 exactly when at least 10 distinct zones are
observed.  Determinism of the tie-break is inherent: the payload is a
function of the input computed with a stable sort. -/
theorem topZones_cat_spec (df f : List Trip) (zl : List (ℕ × String)) (hne : f ≠ [])
    (hsub : ∀ z ∈ pickupIds f, z ∈ pickupIds df) :
    List.Sorted ascByCount (topZones df f zl) ∧
    (topZones df f zl).length = min 10 (categoriesOf (pickupIds df)).length ∧
    (∀ e ∈ topZones df f zl, e.1 ∈ categoriesOf (pickupIds df) ∧
      e.2.2 = (pickupIds f).count e.1 ∧ e.2.1 = zoneName zl e.1) ∧
    (∀ z ∈ categoriesOf (pickupIds df), z ∉ (topZones df f zl).map (fun e => e.1) →
      ∀ e ∈ topZones df f zl, (pickupIds f).count z ≤ e.2.2) := by
  have htz : topZones df f zl =
      List.insertionSort ascByCount
        (((valueCountsCat (categoriesOf (pickupIds df)) (pickupIds f)).map
          (fun p => (p.1, zoneName zl p.1, p.2))).take 10) := rfl
  have hmem_iff : ∀ e, e ∈ topZones df f zl ↔
      e ∈ ((valueCountsCat (categoriesOf (pickupIds df)) (pickupIds f)).take 10).map
        (fun p => (p.1, zoneName zl p.1, p.2)) := by
    intro e
    rw [htz, List.mem_insertionSort, List.map_take]
  refine ⟨?_, ?_, ?_, ?_⟩
  · rw [htz]
    exact List.sorted_insertionSort _ _
  · rw [htz, List.length_insertionSort, List.length_take, List.length_map,
      valueCountsCat_length]
  · intro e he
    obtain ⟨p, hp, rfl⟩ := List.mem_map.mp ((hmem_iff e).mp he)
    obtain ⟨h1, h2⟩ := mem_valueCountsCat.mp (List.take_subset 10 _ hp)
    exact ⟨h1, h2, rfl⟩
  · intro z hz hznot e he
    obtain ⟨p, hp, rfl⟩ := List.mem_map.mp ((hmem_iff e).mp he)
    have hzvc : (z, (pickupIds f).count z) ∈
        valueCountsCat (categoriesOf (pickupIds df)) (pickupIds f) :=
      mem_valueCountsCat.mpr ⟨hz, rfl⟩
    have hnotin : (z, (pickupIds f).count z) ∉
        (valueCountsCat (categoriesOf (pickupIds df)) (pickupIds f)).take 10 := by
      intro hmem
      apply hznot
      have hin : (z, zoneName zl z, (pickupIds f).count z) ∈ topZones df f zl := by
        rw [hmem_iff]
        exact List.mem_map.mpr ⟨(z, (pickupIds f).count z), hmem, rfl⟩
      exact List.mem_map.mpr ⟨_, hin, rfl⟩
    have hsplit : (z, (pickupIds f).count z) ∈
        (valueCountsCat (categoriesOf (pickupIds df)) (pickupIds f)).take 10 ++
          (valueCountsCat (categoriesOf (pickupIds df)) (pickupIds f)).drop 10 := by
      rw [List.take_append_drop]
      exact hzvc
    have hdrop : (z, (pickupIds f).count z) ∈
        (valueCountsCat (categoriesOf (pickupIds df)) (pickupIds f)).drop 10 := by
      rcases List.mem_append.mp hsplit with hcase | hcase
      · exact absurd hcase hnotin
      · exact hcase
    exact (valueCountsCat_sorted _ _).rel_of_mem_take_of_mem_drop hp hdrop

/-- Witness for C8: on the cleaned table with eleven zones and the filtered
table keeping only the zone-1 row, the payload is sorted ascending and has
exactly `min 10 11` entries. -/
theorem topZones_cat_spec_witness :
    List.Sorted ascByCount (topZones dfEleven [deriveG (rowPU 1 1)] []) ∧
    (topZones dfEleven [deriveG (rowPU 1 1)] []).length =
      min 10 (categoriesOf (pickupIds dfEleven)).length :=
  ⟨(topZones_cat_spec dfEleven [deriveG (rowPU 1 1)] [] (by simp) (by decide)).1,
   (topZones_cat_spec dfEleven [deriveG (rowPU 1 1)] [] (by simp) (by decide)).2.1⟩
